import Mathlib

/-!
# EcoWhiskey ATC backend — verification of the audio turn-processing pipeline

Shallow embedding of the `/audio/analyze` pipeline of the EcoWhiskey ATC
backend, translated from:

* `app/pipelines/audio/ingestion.py`   (`normalize_frequency`)
* `app/pipelines/audio/llm.py`         (`call_conversation_llm`)
* `app/pipelines/audio/synthesis.py`   (`synthesize_controller_audio`)
* `app/services/response_contract.py`  (`StructuredLlmResponse` validation)
* `app/services/context_repository.py` (`append_turn`, `MAX_TURNS_STORED`)
* `app/services/session_memory.py`     (in-memory turn store)
* `app/services/prompt_builder.py`     (`build_prompt` difficulty handling)
* `app/controllers/audio.py`           (`analyze_audio` control flow)

Python dictionaries carrying a fixed set of keys are embedded as structures
with `Option` fields (a missing key is `none`); Python truthiness on strings
is made explicit (`none` and the empty string are falsy); external services
(transcription, intent classifier, conversational LLM, TTS, storage) are
modelled as oracles supplied as inputs, and the calls the pipeline makes to
them are recorded in an explicit event trace.
-/

namespace EcoWhiskey

/-! ## String helpers (Python truthiness, `strip`, `lower`, `replace`) -/

/-- Python `str.strip()` restricted to ASCII whitespace, on a character list. -/
def stripChars (l : List Char) : List Char :=
  ((l.dropWhile Char.isWhitespace).reverse.dropWhile Char.isWhitespace).reverse

/-- Python `str.strip()`. -/
def pyStrip (s : String) : String :=
  String.mk (stripChars s.data)

/-- Python truthiness of an optional string: `None` and `""` are falsy. -/
def optTruthy : Option String → Bool
  | none => false
  | some s => s ≠ ""

/-- `a or b` for an optional string `a` and a string default `b`
(Python `or` keeps `a` when it is truthy, else evaluates to `b`). -/
def pyOrStr (a : Option String) (b : String) : String :=
  match a with
  | some s => if s = "" then b else s
  | none => b

/-- Keep an optional string only when it is Python-truthy. -/
def truthyOpt : Option String → Option String
  | none => none
  | some s => if s = "" then none else some s

/-- Python `value.replace(",", ".")` on a string. -/
def commaToDot (s : String) : String :=
  String.mk (s.data.map (fun c => if c = ',' then '.' else c))

/-- Python `str.lower()` restricted to ASCII letters. -/
def pyLower (s : String) : String :=
  String.mk (s.data.map Char.toLower)

/-! ## `normalize_frequency` (app/pipelines/audio/ingestion.py, lines 52–69)

`Decimal(cleaned)` is embedded by a parser for the regular finite-number
grammar accepted by Python's `Decimal` constructor
(`[sign] (digits [. digits] | . digits) [E [sign] digits]`);
`quantize(Decimal("0.001"), rounding=ROUND_HALF_UP)` is embedded by exact
integer arithmetic on the parsed sign/mantissa/exponent triple, and
`format(normalized, "f")` by a fixed-point renderer with three fractional
digits. -/

/-- Numeric value of a digit character. -/
def digitVal (c : Char) : Nat := c.toNat - '0'.toNat

/-- Value of a list of decimal digit characters (most significant first). -/
def digitsVal (l : List Char) : Nat :=
  l.foldl (fun acc c => acc * 10 + digitVal c) 0

/-- Parse the finite-number grammar of Python's `Decimal` constructor:
sign, integer digits, optional fraction, optional exponent.  Returns
`(negative, mantissa, exponent)` with value `±mantissa · 10^exponent`. -/
def parseDecimal (l : List Char) : Option (Bool × Nat × Int) :=
  let (neg, l1) : Bool × List Char :=
    match l with
    | '-' :: rest => (true, rest)
    | '+' :: rest => (false, rest)
    | _ => (false, l)
  let intPart := l1.takeWhile Char.isDigit
  let l2 := l1.dropWhile Char.isDigit
  let (fracPart, l3) : List Char × List Char :=
    match l2 with
    | '.' :: rest => (rest.takeWhile Char.isDigit, rest.dropWhile Char.isDigit)
    | _ => ([], l2)
  if intPart.isEmpty && fracPart.isEmpty then
    none
  else
    let mantissa := digitsVal (intPart ++ fracPart)
    let fracLen : Int := fracPart.length
    match l3 with
    | [] => some (neg, mantissa, -fracLen)
    | e :: rest =>
      if e = 'e' || e = 'E' then
        let (expNeg, r1) : Bool × List Char :=
          match rest with
          | '-' :: r => (true, r)
          | '+' :: r => (false, r)
          | _ => (false, rest)
        let expDigits := r1.takeWhile Char.isDigit
        let r2 := r1.dropWhile Char.isDigit
        if expDigits.isEmpty || !r2.isEmpty then
          none
        else
          let expVal : Int := (digitsVal expDigits : Nat)
          some (neg, mantissa, (if expNeg then -expVal else expVal) - fracLen)
      else
        none

/-- `quantize(Decimal("0.001"), rounding=ROUND_HALF_UP)` on the magnitude
`mantissa · 10^exponent`: the result scaled by `10^3`.  `ROUND_HALF_UP`
rounds ties away from zero, i.e. half-up on the magnitude. -/
def quantize3 (mantissa : Nat) (exponent : Int) : Nat :=
  if -3 ≤ exponent then
    mantissa * 10 ^ (exponent + 3).toNat
  else
    let d := 10 ^ (-(exponent + 3)).toNat
    (2 * mantissa + d) / (2 * d)

/-- Decimal digit characters of a natural number (fuel-based). -/
def natToCharsAux : Nat → Nat → List Char
  | 0, _ => []
  | fuel + 1, n =>
    if n < 10 then [Nat.digitChar n]
    else natToCharsAux fuel (n / 10) ++ [Nat.digitChar (n % 10)]

/-- Decimal digit characters of a natural number. -/
def natToChars (n : Nat) : List Char := natToCharsAux (n + 1) n

/-- The three fractional digit characters of `f < 1000` (zero padded). -/
def pad3Chars (f : Nat) : List Char :=
  [Nat.digitChar (f / 100 % 10), Nat.digitChar (f / 10 % 10), Nat.digitChar (f % 10)]

/-- `format(d, "f")` for a decimal with exponent `-3`: sign, integer part,
dot, exactly three fractional digits (the sign of a negative zero is kept,
as Python's `Decimal` does). -/
def formatQuant3 (neg : Bool) (scaled3 : Nat) : String :=
  String.mk ((if neg then ['-'] else []) ++
    natToChars (scaled3 / 1000) ++ '.' :: pad3Chars (scaled3 % 1000))

/-- `normalize_frequency` (ingestion.py lines 52–69): strip, reject empty,
comma-to-dot, parse as `Decimal`; on parse failure return the lower-cased
cleaned string, otherwise the value quantized to three decimal places with
half-up rounding, rendered in fixed-point form. -/
def normalize_frequency (value : Option String) : Option String :=
  match value with
  | none => none
  | some v =>
    let cleaned := pyStrip v
    if cleaned = "" then
      none
    else
      let cleaned := commaToDot cleaned
      match parseDecimal cleaned.data with
      | none => some (pyLower cleaned)
      | some (neg, mantissa, exponent) =>
        some (formatQuant3 neg (quantize3 mantissa exponent))

example : normalize_frequency (some "118.3") = some "118.300" := by decide
example : normalize_frequency (some "118.30") = some "118.300" := by decide
example : normalize_frequency (some "118,3") = some "118.300" := by decide
example : normalize_frequency (some " 118.3005 ") = some "118.301" := by decide
example : normalize_frequency (some "TWR") = some "twr" := by decide
example : normalize_frequency (some "  ") = none := by decide

/-! ## Data model

Typed counterparts of the JSON/dictionary shapes the pipeline manipulates.
A missing dictionary key is `none`. -/

/-- The `transitions` block of a phase (keys `onSuccess` and `success` are
the ones `analyze_audio` reads, controllers/audio.py line 227). -/
structure Transitions where
  onSuccess : Option String
  success : Option String
  deriving DecidableEq, Repr

/-- A scenario phase, restricted to the keys `analyze_audio` reads. -/
structure Phase where
  id : Option String
  intent : Option String
  frequency : Option String
  transitions : Option Transitions
  deriving DecidableEq, Repr

/-- The keys of the LLM `metadata` object that drive phase transitions
(controllers/audio.py line 224). -/
structure Metadata where
  nextPhase : Option String
  next_phase : Option String
  deriving DecidableEq, Repr

/-- A validated LLM response (services/response_contract.py,
`StructuredLlmResponse` after model validation: `feedback_text` is never
`None`, `confidence`/`score` are clamped). -/
structure StructuredLlmResponse where
  intent : String
  allow_response : Bool
  controller_text : Option String
  feedback_text : String
  confidence : Option ℚ
  score : Option ℚ
  metadata : Metadata
  deriving DecidableEq, Repr

/-- `LlmOutcome` (pipelines/audio/types.py). -/
structure LlmOutcome where
  response : StructuredLlmResponse
  raw_response : String
  deriving DecidableEq, Repr

/-- A validated intent-classifier response
(`IntentClassificationResponse`, services/response_contract.py). -/
structure ClassifierOut where
  intent : String
  frequency_group : Option String
  confidence : Option ℚ
  deriving DecidableEq, Repr

/-- The slice of the mutable `session_context` dictionary that the phase
bookkeeping of `analyze_audio` reads and writes. -/
structure SessionState where
  phase_id : Option String
  phase : Option Phase
  phase_map : List (String × Phase)
  frequencies : Option (List (String × String))
  active_frequency_group : Option String
  default_frequency_group : Option String
  deriving DecidableEq, Repr

/-- External calls the pipeline can make, in the order they are issued. -/
inductive Event where
  | transcribe
  | classifierInvoke
  | appendTurn
  | llmInvoke
  | ttsSynthesize
  | storageUpload
  deriving DecidableEq, Repr

/-- The JSON body of a successful `/audio/analyze` response (the fields the
claims are about). -/
structure HttpResponse where
  audio_url : Option String
  controller_text : Option String
  feedback : String
  deriving DecidableEq, Repr

/-- The outcome of one `/audio/analyze` request. -/
inductive AnalyzeResult where
  /-- HTTP 409, no active phase configured for the session. -/
  | conflictNoPhase
  /-- HTTP 409, the active phase has no intent (and none was detected). -/
  | conflictNoIntent
  /-- HTTP 502, the LLM stage failed. -/
  | badGateway
  /-- HTTP 200 with the given body. -/
  | ok (r : HttpResponse)
  deriving DecidableEq, Repr

/-- Result of one request: HTTP outcome, trace of external calls, the
`PhaseScore` row written (phase id and score), and the final session
state. -/
structure AnalyzeOutcome where
  result : AnalyzeResult
  events : List Event
  scoreRecord : Option (String × ℚ)
  finalState : SessionState
  deriving DecidableEq, Repr

/-- Inputs of one `/audio/analyze` request together with the oracles for
the external services: the transcript the transcription service returns,
the classifier result (`none` when classification failed or was skipped),
the conversational LLM outcome (`Except.error` models a raised
`LlmInvocationError`/`ResponseContractError`), and the URL the storage
service returns for uploaded readback audio. -/
structure AnalyzeInput where
  transcript : String
  frequency : String
  classifier : Option ClassifierOut
  ctx : SessionState
  llm : Except Unit LlmOutcome
  ttsUrl : String
  deriving Repr

/-! ## Stage functions -/

/-- `synthesize_controller_audio` (pipelines/audio/synthesis.py lines
22–56): strip the text; when the response is withheld or the text is
empty return `None` without calling TTS or storage; otherwise call both
and return the uploaded URL.  The URL the storage service would return is
passed as an oracle; the second component records the external calls
made. -/
def synthesize_controller_audio (controllerText : String) (allowResponse : Bool)
    (url : String) : Option String × List Event :=
  let text := pyStrip controllerText
  if !allowResponse || text = "" then
    (none, [])
  else
    (some url, [Event.ttsSynthesize, Event.storageUpload])

/-- `classifier_intent` (controllers/audio.py line 93):
`(intent_classification.intent or "").strip() or None`. -/
def classifierIntentOf (inp : AnalyzeInput) : Option String :=
  inp.classifier.bind (fun c => truthyOpt (some (pyStrip c.intent)))

/-- `classifier_frequency_group` (controllers/audio.py line 94):
`(intent_classification.frequency_group or "").strip() or None`. -/
def classifierGroupOf (inp : AnalyzeInput) : Option String :=
  inp.classifier.bind (fun c =>
    truthyOpt (some (pyStrip (pyOrStr c.frequency_group ""))))

/-- `phase_intent = classifier_intent or scenario_intent`
(controllers/audio.py line 110), kept only when Python-truthy
(line 111 checks `if not phase_intent`). -/
def phaseIntentOf (inp : AnalyzeInput) (P : Phase) : Option String :=
  match classifierIntentOf inp with
  | some s => some s
  | none => truthyOpt P.intent

/-- `scenario_group` (controllers/audio.py lines 115–120): first truthy of
the phase's `frequency`, the active group, the default group, `"tower"`. -/
def scenarioGroupOf (inp : AnalyzeInput) (P : Phase) : String :=
  pyOrStr P.frequency
    (pyOrStr inp.ctx.active_frequency_group
      (pyOrStr inp.ctx.default_frequency_group "tower"))

/-- `active_group` (controllers/audio.py lines 121–133): the classifier's
group replaces the scenario group only when the latter is missing or
`"unknown"`; a mere mismatch is logged and ignored. -/
def activeGroupOf (inp : AnalyzeInput) (P : Phase) : String :=
  let scenarioGroup := scenarioGroupOf inp P
  match classifierGroupOf inp with
  | some g => if scenarioGroup = "" || scenarioGroup = "unknown" then g else scenarioGroup
  | none => scenarioGroup

/-- `expected_frequency = frequencies.get(active_group)`
(controllers/audio.py line 135). -/
def expectedFrequencyOf (inp : AnalyzeInput) (P : Phase) : Option String :=
  inp.ctx.frequencies.bind (fun fs => fs.lookup (activeGroupOf inp P))

/-- `expected_frequency_normalized` (controllers/audio.py line 137). -/
def expectedNormOf (inp : AnalyzeInput) (P : Phase) : Option String :=
  normalize_frequency (expectedFrequencyOf inp P)

/-- `received_frequency_normalized` (controllers/audio.py lines 136, 138). -/
def receivedNormOf (inp : AnalyzeInput) : Option String :=
  normalize_frequency (some (pyStrip inp.frequency))

/-- `is_valid_frequency` (controllers/audio.py lines 140–143). -/
def isValidFrequencyOf (inp : AnalyzeInput) (P : Phase) : Bool :=
  !optTruthy (expectedNormOf inp P) || receivedNormOf inp = expectedNormOf inp P

/-- The explicit next-phase id from the response metadata
(controllers/audio.py line 224):
`response_metadata.get("nextPhase") or response_metadata.get("next_phase")`,
kept only when Python-truthy. -/
def metadataNextPhase (m : Metadata) : Option String :=
  match truthyOpt m.nextPhase with
  | some s => some s
  | none => truthyOpt m.next_phase

/-- The candidate next-phase id (controllers/audio.py lines 224–229):
explicit metadata first; otherwise, only when `allow_response` is true,
`transitions.get("onSuccess") or transitions.get("success")`, accepted when
it is a non-empty string after stripping. -/
def transitionCandidate (P : Phase) (allow : Bool) (m : Metadata) : Option String :=
  match metadataNextPhase m with
  | some s => some s
  | none =>
    if allow then
      match P.transitions with
      | none => none
      | some t =>
        match (match truthyOpt t.onSuccess with
               | some s => some s
               | none => t.success) with
        | some c => truthyOpt (some (pyStrip c))
        | none => none
    else none

/-- The phase-transition block (controllers/audio.py lines 223–238): when
a candidate id resolves in `phase_map`, switch `phase_id`/`phase` and, when
the new phase carries a truthy `frequency`, make it both the default and
active frequency group; otherwise leave the state untouched. -/
def applyPhaseTransition (ctx : SessionState) (P : Phase) (allow : Bool)
    (m : Metadata) : SessionState :=
  match transitionCandidate P allow m with
  | none => ctx
  | some pid =>
    match ctx.phase_map.lookup pid with
    | none => ctx
    | some nextPhase =>
      { ctx with
        phase_id := some pid
        phase := some nextPhase
        default_frequency_group :=
          if optTruthy nextPhase.frequency then nextPhase.frequency
          else ctx.default_frequency_group
        active_frequency_group :=
          if optTruthy nextPhase.frequency then nextPhase.frequency
          else ctx.active_frequency_group }

/-- `analyze_audio` (controllers/audio.py lines 52–301), as a function of
the request inputs and the service oracles.

The events before the phase check mirror lines 61–103: transcription,
the intent classifier (which `classify_intent` only invokes for a
non-blank transcript, pipelines/audio/intent.py line 28), and the
student-turn append.  The two 409 conditions are lines 105–112; the
frequency guard is lines 114–143; the valid branch calls the
conversational LLM (lines 178–204, a failure becoming HTTP 502); the
invalid branch synthesizes the deterministic feedback message (lines
205–221); then the phase transition (223–238), the controller-turn
append (240–259), the `PhaseScore` write (261–288) and TTS synthesis
(293) follow. -/
def analyze_audio (inp : AnalyzeInput) : AnalyzeOutcome :=
  let preEvents :=
    [Event.transcribe] ++
    (if pyStrip inp.transcript = "" then [] else [Event.classifierInvoke]) ++
    [Event.appendTurn]
  match inp.ctx.phase with
  | none => ⟨.conflictNoPhase, preEvents, none, inp.ctx⟩
  | some P =>
    match phaseIntentOf inp P with
    | none => ⟨.conflictNoIntent, preEvents, none, inp.ctx⟩
    | some _ =>
      let activeGroup := activeGroupOf inp P
      let ctx1 := { inp.ctx with active_frequency_group := some activeGroup }
      if isValidFrequencyOf inp P then
        match inp.llm with
        | .error _ => ⟨.badGateway, preEvents ++ [Event.llmInvoke], none, ctx1⟩
        | .ok outcome =>
          let structured := outcome.response
          let allow := structured.allow_response
          let controllerText := pyStrip (pyOrStr structured.controller_text "")
          let feedback := pyOrStr (some (pyStrip structured.feedback_text)) "Colación recibida."
          let ctx2 := applyPhaseTransition ctx1 P allow structured.metadata
          let score? := structured.score.map (fun s => (pyOrStr ctx2.phase_id "unknown", s))
          let (audioUrl, synthEvents) := synthesize_controller_audio controllerText allow inp.ttsUrl
          ⟨.ok { audio_url := audioUrl
                 controller_text :=
                   if allow && controllerText ≠ "" then some controllerText else none
                 feedback := feedback },
           preEvents ++ [Event.llmInvoke, Event.appendTurn] ++ synthEvents,
           score?, ctx2⟩
      else
        let displayExpected :=
          pyOrStr (expectedNormOf inp P)
            (pyOrStr (expectedFrequencyOf inp P) activeGroup)
        let message := "La frecuencia esperada para esta solicitud es " ++ displayExpected ++ "."
        let ctx2 := applyPhaseTransition ctx1 P false ⟨none, none⟩
        let (audioUrl, synthEvents) := synthesize_controller_audio message false inp.ttsUrl
        ⟨.ok { audio_url := audioUrl
               controller_text := if false && message ≠ "" then some message else none
               feedback := message },
         preEvents ++ [Event.appendTurn] ++ synthEvents,
         some ("frequency_usage_error", 0), ctx2⟩

/-! ## `call_conversation_llm` (pipelines/audio/llm.py, lines 26–73)

The Bedrock client is an oracle `invoke : Nat → String` giving the raw
payload of each attempt (Python's falsy check on the payload makes `""`
the empty response); `StructuredLlmResponse.from_json` — JSON extraction
plus schema validation, an external import from the point of view of
`llm.py` — is the oracle `fromJson`, returning `none` exactly when
validation raises.  The second component counts the invocations made. -/

/-- Errors `call_conversation_llm` can raise. -/
inductive LlmError where
  /-- `ResponseContractError("LLM devolvió una respuesta vacía.")`. -/
  | emptyResponse
  /-- `ResponseContractError` after the retry budget is exhausted. -/
  | responseContractError
  deriving DecidableEq, Repr

/-- `_MAX_JSON_RETRIES` (llm.py line 17). -/
def MAX_JSON_RETRIES : Nat := 2

/-- One iteration of the `for attempt in range(_MAX_JSON_RETRIES + 1)` loop
starting at `attempt`, with `remaining` further attempts allowed. -/
def callConversationLlmFrom (invoke : Nat → String)
    (fromJson : String → Option StructuredLlmResponse) :
    Nat → Nat → Except LlmError LlmOutcome × Nat
  | attempt, remaining =>
    let raw := invoke attempt
    if raw = "" then
      (.error .emptyResponse, 1)
    else
      match fromJson raw with
      | some structured => (.ok ⟨structured, raw⟩, 1)
      | none =>
        match remaining with
        | 0 => (.error .responseContractError, 1)
        | r + 1 =>
          let (res, calls) := callConversationLlmFrom invoke fromJson (attempt + 1) r
          (res, calls + 1)

/-- `call_conversation_llm`: the bounded retry loop, returning the outcome
and the number of LLM invocations made. -/
def call_conversation_llm (invoke : Nat → String)
    (fromJson : String → Option StructuredLlmResponse) :
    Except LlmError LlmOutcome × Nat :=
  callConversationLlmFrom invoke fromJson 0 MAX_JSON_RETRIES

/-! ## `StructuredLlmResponse` validation
(services/response_contract.py, lines 15–46)

`model_validate` on an already-parsed JSON object whose fields have the
declared types: the `normalize_confidence` model validator clamps
`confidence` to `[0, 1]` and `score` to `[0, 100]`, and replaces a `None`
feedback with the empty string (the field also defaults to `""` when the
key is absent). -/

/-- The raw field values of a parsed LLM JSON object, before the model
validator runs (`feedback` may be `null` or absent: both are `none`). -/
structure RawLlmFields where
  intent : String
  allowResponse : Bool
  controllerText : Option String
  feedback : Option String
  confidence : Option ℚ
  score : Option ℚ
  metadata : Metadata
  deriving DecidableEq, Repr

/-- Python `min(a, b)` (returns the first argument on ties). -/
def pyMin (a b : ℚ) : ℚ := if a ≤ b then a else b

/-- Python `max(a, b)` (returns the first argument on ties). -/
def pyMax (a b : ℚ) : ℚ := if b ≤ a then a else b

/-- The `normalize_confidence` model validator (response_contract.py lines
26–34) applied to the parsed fields. -/
def modelValidate (r : RawLlmFields) : StructuredLlmResponse :=
  { intent := r.intent
    allow_response := r.allowResponse
    controller_text := r.controllerText
    feedback_text := r.feedback.getD ""
    confidence := r.confidence.map (fun c => pyMax 0 (pyMin 1 c))
    score := r.score.map (fun s => pyMax 0 (pyMin 100 s))
    metadata := r.metadata }

/-! ## Prompt difficulty handling
(services/prompt_builder.py lines 102–172, pipelines/audio/prompts.py lines
41–61)

Only the system prompt matters for the difficulty claim.  The placeholder
substitution `_substitute_dynamic_values` is embedded with a fuel-based
scanner for the regex `\[data\.([\w_]+)\]`. -/

/-- `PROMPT_TEMPLATES` (prompt_builder.py lines 15–32). -/
def PROMPT_TEMPLATES (group : String) : Option String :=
  if group = "tower" then
    some ("Eres un controlador de torre en español (Costa Rica). " ++
      "Gestionas autorizaciones de despegue/aterrizaje, transferencias y avisos de pista.")
  else if group = "ground" then
    some ("Eres un controlador de superficie en español (Costa Rica). " ++
      "Gestionas rodajes, puntos de espera y pistas activas.")
  else if group = "approach" then
    some ("Eres un controlador radar de aproximación en español (Costa Rica). " ++
      "Gestionas vectores, niveles y transferencias de frecuencia.")
  else if group = "radar" then
    some ("Eres un controlador radar en español (Costa Rica). " ++
      "Entrega instrucciones concisas de rumbo, altitud y transferencia.")
  else none

/-- The low-difficulty instruction (prompt_builder.py lines 142–145). -/
def modoRelajado : String :=
  " Modo relajado: Sé flexible con la fraseología. Acepta variaciones informales siempre que la intención sea clara y segura. " ++
  "No penalices errores menores."

/-- The mid-difficulty instruction (prompt_builder.py lines 147–150). -/
def modoNormal : String :=
  " Modo normal: Balancea la precisión con la fluidez. Penaliza errores de seguridad o información crítica, " ++
  "pero permite ligeras variaciones."

/-- The high-difficulty instruction (prompt_builder.py lines 152–154). -/
def modoEstricto : String :=
  " Modo estricto: Exige fraseología estándar perfecta. Penaliza cualquier desviación o error menor."

/-- The difficulty-dependent instruction appended to the system prompt
(prompt_builder.py lines 140–154). -/
def difficultyInstruction (difficulty : Int) : String :=
  if difficulty ≤ 3 then modoRelajado
  else if difficulty ≤ 7 then modoNormal
  else modoEstricto

/-- The JSON-contract suffix of the system prompt (prompt_builder.py lines
156–172), kept abbreviated to its opening words: its content does not
matter for the difficulty claim, only that it is a fixed suffix. -/
def schemaSuffix : String :=
  " Responde únicamente en formato JSON válido con la estructura exacta:" ++
  " \x7b ... \x7d. No escribas texto adicional antes o después del JSON."

/-- Try to read a `[data.KEY]` placeholder at the head of the character
list; on success return the key and the remaining characters. -/
def tryPlaceholder (l : List Char) : Option (String × List Char) :=
  match l with
  | '[' :: 'd' :: 'a' :: 't' :: 'a' :: '.' :: rest =>
    let keyChars := rest.takeWhile (fun c => c.isAlphanum || c = '_')
    let rest2 := rest.dropWhile (fun c => c.isAlphanum || c = '_')
    match rest2 with
    | ']' :: tail => if keyChars.isEmpty then none else some (String.mk keyChars, tail)
    | _ => none
  | _ => none

/-- `_substitute_dynamic_values` (prompt_builder.py lines 86–99): replace
each `[data.key]` placeholder with the value from the phase's `data` map,
keeping the original text when the key is absent (fuel-based scan). -/
def substDynamicAux (data : List (String × String)) : Nat → List Char → List Char
  | 0, l => l
  | _ + 1, [] => []
  | fuel + 1, c :: rest =>
    match tryPlaceholder (c :: rest) with
    | some (key, tail) =>
      match data.lookup key with
      | some v => v.data ++ substDynamicAux data fuel tail
      | none => ('[' :: 'd' :: 'a' :: 't' :: 'a' :: '.' :: key.data ++ [']']) ++
          substDynamicAux data fuel tail
    | none => c :: substDynamicAux data fuel rest

/-- `_substitute_dynamic_values` on strings. -/
def substituteDynamicValues (text : String) (data : List (String × String)) : String :=
  String.mk (substDynamicAux data text.data.length text.data)

/-- The persona part of the system prompt (prompt_builder.py lines
113–137): persona by frequency group (tower fallback), overridden by a
scenario-authored controller role with placeholder substitution. -/
def systemPromptBase (frequencyGroup : String) (controllerRole : Option String)
    (phaseData : List (String × String)) : String :=
  match controllerRole with
  | some role => substituteDynamicValues role phaseData
  | none =>
    (PROMPT_TEMPLATES frequencyGroup).getD ((PROMPT_TEMPLATES "tower").getD "") ++
      " Debes evaluar transmisiones de entrenamiento ATC y proporcionar retroalimentación."

/-- The system prompt built by `build_prompt` (prompt_builder.py lines
113–172): the persona part, then the difficulty instruction, then the
JSON-contract suffix. -/
def buildSystemPrompt (frequencyGroup : String) (controllerRole : Option String)
    (phaseData : List (String × String)) (difficulty : Int) : String :=
  systemPromptBase frequencyGroup controllerRole phaseData ++
    difficultyInstruction difficulty ++ schemaSuffix

/-- The default difficulty used when `build_llm_request` is called without
an explicit one (pipelines/audio/prompts.py line 49, also
`PromptContext.difficulty`, prompt_builder.py line 43). -/
def buildLlmRequestDefaultDifficulty : Int := 2

/-! ## Turn-history truncation
(services/context_repository.py lines 64–134, services/session_memory.py,
controllers/audio.py lines 74–80) -/

/-- `MAX_TURNS_STORED` (context_repository.py line 23). -/
def MAX_TURNS_STORED : Nat := 40

/-- Python `lst[-n:]`: the last `n` elements. -/
def takeLast {α : Type} (n : Nat) (l : List α) : List α :=
  l.drop (l.length - n)

/-- The in-request history update of `save_turn` (controllers/audio.py
lines 78–79): `history.append(payload); history[:] = history[-MAX_TURNS_STORED:]`. -/
def saveTurnHistory {α : Type} (history : List α) (payload : α) : List α :=
  takeLast MAX_TURNS_STORED (history ++ [payload])

/-- The `turns` list `append_turn` persists (context_repository.py lines
88–132).  `existing` is the stored context's `turns` list when a
`TrainingContext` row exists; `baseTurns` is the `turns` list of the
`base_context` argument when it is a list; `userId` mirrors the guard on
line 89.  `none` means nothing is persisted (missing row and no user id). -/
def appendTurnStoredTurns {α : Type} (existing : Option (List α))
    (baseTurns : Option (List α)) (userId : Option Nat) (turn : α) :
    Option (List α) :=
  match existing with
  | none =>
    match userId with
    | none => none
    | some _ => some (takeLast MAX_TURNS_STORED ((baseTurns.getD []) ++ [turn]))
  | some stored =>
    let turns := match baseTurns with
      | some base => base
      | none => stored
    some (takeLast MAX_TURNS_STORED (turns ++ [turn]))

/-- `append_turn` of the in-memory fallback store (session_memory.py lines
25–32): append, then drop to the last `_MAX_TURNS = 40` when over. -/
def memoryAppendTurn {α : Type} (entry : List α) (turn : α) : List α :=
  let entry := entry ++ [turn]
  if MAX_TURNS_STORED < entry.length then takeLast MAX_TURNS_STORED entry else entry

/-! ## Supporting lemmas -/

theorem takeLast_length_le {α : Type} (n : Nat) (l : List α) :
    (takeLast n l).length ≤ n := by
  simp only [takeLast, List.length_drop]
  omega

theorem callConversationLlmFrom_calls_le (invoke : Nat → String)
    (fromJson : String → Option StructuredLlmResponse) (attempt remaining : Nat) :
    (callConversationLlmFrom invoke fromJson attempt remaining).2 ≤ remaining + 1 := by
  induction remaining generalizing attempt with
  | zero =>
    rw [callConversationLlmFrom]
    split
    · exact Nat.le_refl _
    · split
      · exact Nat.le_refl _
      · exact Nat.le_refl _
  | succ r ih =>
    rw [callConversationLlmFrom]
    split
    · omega
    · split
      · omega
      · have := ih (attempt + 1)
        simp only []
        omega

theorem natToChars_ne_nil (n : Nat) : natToChars n ≠ [] := by
  rw [natToChars, natToCharsAux]
  split <;> simp

theorem digitChar_isDigit {n : Nat} (h : n < 10) : (Nat.digitChar n).isDigit = true := by
  interval_cases n <;> decide

theorem natToCharsAux_digits (fuel n : Nat) :
    ∀ c ∈ natToCharsAux fuel n, c.isDigit = true := by
  induction fuel generalizing n with
  | zero => intro c hc; simp [natToCharsAux] at hc
  | succ f ih =>
    intro c hc
    rw [natToCharsAux] at hc
    split at hc
    · rw [List.mem_singleton] at hc
      subst hc
      exact digitChar_isDigit (by omega)
    · rw [List.mem_append] at hc
      rcases hc with hc | hc
      · exact ih (n / 10) c hc
      · rw [List.mem_singleton] at hc
        subst hc
        exact digitChar_isDigit (Nat.mod_lt _ (by omega))

theorem natToChars_digits (n : Nat) : ∀ c ∈ natToChars n, c.isDigit = true :=
  natToCharsAux_digits (n + 1) n

theorem string_mk_ne_empty {l : List Char} (h : l ≠ []) : String.mk l ≠ "" := by
  intro hcontra
  exact h (congrArg String.data hcontra)

theorem string_eq_empty_of_data_nil {s : String} (h : s.data = []) : s = "" := by
  cases s with
  | mk l =>
    simp only at h
    subst h
    rfl

theorem pyLower_eq_empty {s : String} (h : pyLower s = "") : s = "" := by
  apply string_eq_empty_of_data_nil
  have h2 : s.data.map Char.toLower = [] := by
    have h3 := congrArg String.data h
    simpa [pyLower] using h3
  exact List.map_eq_nil_iff.mp h2

theorem commaToDot_eq_empty {s : String} (h : commaToDot s = "") : s = "" := by
  apply string_eq_empty_of_data_nil
  have h2 : s.data.map (fun c => if c = ',' then '.' else c) = [] := by
    have h3 := congrArg String.data h
    simpa [commaToDot] using h3
  exact List.map_eq_nil_iff.mp h2

theorem normalize_frequency_ne_empty (v : Option String) (s : String)
    (h : normalize_frequency v = some s) : s ≠ "" := by
  unfold normalize_frequency at h
  match v with
  | none => simp at h
  | some w =>
    simp only at h
    split at h
    · simp at h
    · rename_i hne
      split at h
      · rw [Option.some_inj] at h
        subst h
        intro hcontra
        exact hne (commaToDot_eq_empty (pyLower_eq_empty hcontra))
      · rw [Option.some_inj] at h
        subst h
        apply string_mk_ne_empty
        simp [formatQuant3]

/-! ## Claims -/

/-- C5: after every append of a turn — via the request-local `save_turn`
helper, via the persisted `turns` list of `append_turn` (in each of its
branches that writes), and via the in-memory fallback store — the
resulting turn list has length at most `MAX_TURNS_STORED` (= 40). -/
theorem c5_turn_history_bounded :
    (∀ (α : Type) (history : List α) (payload : α),
        (saveTurnHistory history payload).length ≤ MAX_TURNS_STORED) ∧
    (∀ (α : Type) (existing baseTurns : Option (List α)) (userId : Option Nat)
        (turn : α) (l : List α),
        appendTurnStoredTurns existing baseTurns userId turn = some l →
        l.length ≤ MAX_TURNS_STORED) ∧
    (∀ (α : Type) (entry : List α) (turn : α),
        (memoryAppendTurn entry turn).length ≤ MAX_TURNS_STORED) := by
  refine ⟨fun α history payload => takeLast_length_le _ _,
          fun α existing baseTurns userId turn l h => ?_,
          fun α entry turn => ?_⟩
  · unfold appendTurnStoredTurns at h
    match existing, userId with
    | none, none => simp at h
    | none, some uid =>
      simp only [Option.some_inj] at h
      subst h
      exact takeLast_length_le _ _
    | some stored, _ =>
      simp only [Option.some_inj] at h
      subst h
      exact takeLast_length_le _ _
  · unfold memoryAppendTurn
    simp only []
    split
    · exact takeLast_length_le _ _
    · rename_i hle
      simp only [List.length_append, List.length_singleton] at hle ⊢
      omega

/-- C5 witness: a concrete persisted append satisfying the bound. -/
theorem c5_turn_history_bounded_witness :
    appendTurnStoredTurns (some [1, 2]) none (some 7) (3 : Nat) = some [1, 2, 3] ∧
    ([1, 2, 3] : List Nat).length ≤ MAX_TURNS_STORED :=
  ⟨by decide,
   c5_turn_history_bounded.2.1 Nat (some [1, 2]) none (some 7) 3 [1, 2, 3] (by decide)⟩

/-- C7: every `StructuredLlmResponse` produced by the model validator has
`confidence ∈ [0, 1]` when present, `score ∈ [0, 100]` when present
(out-of-range values are clamped, never rejected — the validator is
total), and a string `feedback_text` that is `""` exactly when the model
omitted or nulled the feedback field. -/
theorem c7_structured_response_clamped (r : RawLlmFields) :
    (∀ c : ℚ, (modelValidate r).confidence = some c → 0 ≤ c ∧ c ≤ 1) ∧
    (∀ s : ℚ, (modelValidate r).score = some s → 0 ≤ s ∧ s ≤ 100) ∧
    (r.feedback = none → (modelValidate r).feedback_text = "") ∧
    (∀ f, r.feedback = some f → (modelValidate r).feedback_text = f) := by
  have clampBounds : ∀ (b c : ℚ), 0 ≤ b → 0 ≤ pyMax 0 (pyMin b c) ∧ pyMax 0 (pyMin b c) ≤ b := by
    intro b c hb
    unfold pyMax pyMin
    split <;> split <;> constructor <;> linarith
  refine ⟨fun c hc => ?_, fun s hs => ?_, fun hf => ?_, fun f hf => ?_⟩
  · simp only [modelValidate] at hc
    match hr : r.confidence with
    | none => rw [hr] at hc; simp at hc
    | some c0 =>
      rw [hr] at hc
      simp only [Option.map_some', Option.some_inj] at hc
      subst hc
      exact clampBounds 1 c0 (by norm_num)
  · simp only [modelValidate] at hs
    match hr : r.score with
    | none => rw [hr] at hs; simp at hs
    | some s0 =>
      rw [hr] at hs
      simp only [Option.map_some', Option.some_inj] at hs
      subst hs
      exact clampBounds 100 s0 (by norm_num)
  · simp [modelValidate, hf]
  · simp [modelValidate, hf]

/-- C7 witness: an out-of-range confidence is clamped to 1, which lies in
the unit interval. -/
theorem c7_structured_response_clamped_witness :
    (modelValidate ⟨"i", true, none, none, some (3 / 2 : ℚ), some (150 : ℚ),
        ⟨none, none⟩⟩).confidence = some 1 ∧
    ((0 : ℚ) ≤ 1 ∧ (1 : ℚ) ≤ 1) :=
  ⟨by norm_num [modelValidate, pyMin, pyMax],
   (c7_structured_response_clamped
       ⟨"i", true, none, none, some (3 / 2 : ℚ), some (150 : ℚ), ⟨none, none⟩⟩).1
     1 (by norm_num [modelValidate, pyMin, pyMax])⟩

/-- C2: `call_conversation_llm` invokes the model at most 3 times; an
empty first response raises at once without retry; when the first two
payloads fail validation and the third validates, the validated response
is returned with exactly 3 invocations and no error; when all three fail
validation, a `ResponseContractError` is raised after exactly 3
invocations and no outcome is returned. -/
theorem c2_llm_retry_budget (invoke : Nat → String)
    (fromJson : String → Option StructuredLlmResponse) :
    (call_conversation_llm invoke fromJson).2 ≤ 3 ∧
    (invoke 0 = "" →
      call_conversation_llm invoke fromJson = (.error .emptyResponse, 1)) ∧
    (invoke 0 ≠ "" → invoke 1 ≠ "" → invoke 2 ≠ "" →
      fromJson (invoke 0) = none → fromJson (invoke 1) = none →
      ((∀ r, fromJson (invoke 2) = some r →
          call_conversation_llm invoke fromJson = (.ok ⟨r, invoke 2⟩, 3)) ∧
       (fromJson (invoke 2) = none →
          call_conversation_llm invoke fromJson =
            (.error .responseContractError, 3)))) := by
  refine ⟨callConversationLlmFrom_calls_le invoke fromJson 0 MAX_JSON_RETRIES,
          fun h0 => ?_, fun h0 h1 h2 hj0 hj1 => ?_⟩
  · rw [call_conversation_llm, MAX_JSON_RETRIES, callConversationLlmFrom, if_pos h0]
  · have e0 : callConversationLlmFrom invoke fromJson 0 2 =
        ((callConversationLlmFrom invoke fromJson 1 1).1,
         (callConversationLlmFrom invoke fromJson 1 1).2 + 1) := by
      conv_lhs => rw [callConversationLlmFrom]
      rw [if_neg h0, hj0]
    have e1 : callConversationLlmFrom invoke fromJson 1 1 =
        ((callConversationLlmFrom invoke fromJson 2 0).1,
         (callConversationLlmFrom invoke fromJson 2 0).2 + 1) := by
      conv_lhs => rw [callConversationLlmFrom]
      rw [if_neg h1, hj1]
    have hcall : call_conversation_llm invoke fromJson =
        ((callConversationLlmFrom invoke fromJson 2 0).1,
         (callConversationLlmFrom invoke fromJson 2 0).2 + 1 + 1) := by
      rw [call_conversation_llm, MAX_JSON_RETRIES, e0, e1]
    constructor
    · intro r hr
      rw [hcall, callConversationLlmFrom, if_neg h2, hr]
    · intro hj2
      rw [hcall, callConversationLlmFrom, if_neg h2, hj2]

/-- C2 witness: a run where the first two payloads are malformed and the
third validates, and a run where all three are malformed. -/
theorem c2_llm_retry_budget_witness :
    ((fun n => if n = 2 then "good" else "bad") 0 ≠ "" ∧
     (fun s => if s = "good"
        then some ({ intent := "i", allow_response := true, controller_text := none,
                     feedback_text := "", confidence := none, score := none,
                     metadata := ⟨none, none⟩ } : StructuredLlmResponse)
        else none) "bad" = none) ∧
    call_conversation_llm (fun n => if n = 2 then "good" else "bad")
      (fun s => if s = "good"
        then some { intent := "i", allow_response := true, controller_text := none,
                    feedback_text := "", confidence := none, score := none,
                    metadata := ⟨none, none⟩ }
        else none) =
      (.ok ⟨{ intent := "i", allow_response := true, controller_text := none,
              feedback_text := "", confidence := none, score := none,
              metadata := ⟨none, none⟩ }, "good"⟩, 3) ∧
    call_conversation_llm (fun _ => "bad") (fun _ => none) =
      (.error .responseContractError, 3) := by
  refine ⟨⟨by decide, by decide⟩, ?_, ?_⟩
  · exact ((c2_llm_retry_budget _ _).2.2 (by decide) (by decide) (by decide)
      (by decide) (by decide)).1 _ (by decide)
  · exact ((c2_llm_retry_budget _ _).2.2 (by decide) (by decide) (by decide)
      rfl rfl).2 rfl

set_option maxRecDepth 4096 in
/-- C8 counterexample: `build_llm_request`'s default difficulty is 2, which
falls in the low band (≤ 3), so the system prompt generated without an
explicit difficulty carries the relaxed instruction, not the mid-difficulty
one. -/
theorem c8_default_difficulty_counterexample :
    difficultyInstruction buildLlmRequestDefaultDifficulty = modoRelajado ∧
    modoRelajado ≠ modoNormal ∧
    buildSystemPrompt "tower" none [] buildLlmRequestDefaultDifficulty =
      systemPromptBase "tower" none [] ++ modoRelajado ++ schemaSuffix := by
  refine ⟨rfl, by decide, rfl⟩

/-- C8 (amended): when the prompt assembler is called without an explicit
difficulty, the difficulty defaults to 2 on the 1–10 scale, so the
generated system prompt contains the relaxed (low-difficulty) instruction,
whatever persona or phase data is in effect. -/
theorem c8_default_difficulty_relaxed (group : String) (role : Option String)
    (data : List (String × String)) :
    ∃ a, buildSystemPrompt group role data buildLlmRequestDefaultDifficulty =
      a ++ modoRelajado ++ schemaSuffix := by
  refine ⟨systemPromptBase group role data, ?_⟩
  have h : difficultyInstruction buildLlmRequestDefaultDifficulty = modoRelajado := rfl
  rw [buildSystemPrompt, h]

/-- C6: every numeric frequency string — one whose stripped, comma-to-dot
form the decimal parser accepts — normalizes to a canonical decimal string
with an optional sign, a non-empty digit integer part, and exactly three
digits after the single trailing dot; the variants `118.3`, `118.30`,
`118.300` and `118,3` all normalize to the same string (and ties round
half-up); and when the expected frequency for the active group normalizes
to nothing the frequency guard accepts any received frequency. -/
theorem c6_normalize_frequency_canonical :
    (∀ (s : String) (neg : Bool) (m : Nat) (e : Int),
        parseDecimal (commaToDot (pyStrip s)).data = some (neg, m, e) →
        ∃ sign intChars f1 f2 f3,
          normalize_frequency (some s) =
            some (String.mk (sign ++ intChars ++ '.' :: [f1, f2, f3])) ∧
          (sign = [] ∨ sign = ['-']) ∧
          intChars ≠ [] ∧
          (∀ c ∈ intChars, c.isDigit = true) ∧
          f1.isDigit = true ∧ f2.isDigit = true ∧ f3.isDigit = true) ∧
    (normalize_frequency (some "118.3") = some "118.300" ∧
     normalize_frequency (some "118.30") = some "118.300" ∧
     normalize_frequency (some "118.300") = some "118.300" ∧
     normalize_frequency (some "118,3") = some "118.300" ∧
     normalize_frequency (some "118.3005") = some "118.301") ∧
    (∀ (inp : AnalyzeInput) (P : Phase),
        expectedNormOf inp P = none → isValidFrequencyOf inp P = true) := by
  refine ⟨fun s neg m e hparse => ?_,
          ⟨by decide, by decide, by decide, by decide, by decide⟩,
          fun inp P h => ?_⟩
  · have hne : pyStrip s ≠ "" := by
      intro hempty
      rw [hempty] at hparse
      have hnone : parseDecimal (commaToDot "").data = none := by decide
      rw [hnone] at hparse
      exact Option.noConfusion hparse
    have hn : normalize_frequency (some s) =
        some (formatQuant3 neg (quantize3 m e)) := by
      unfold normalize_frequency
      dsimp only
      rw [if_neg hne, hparse]
    refine ⟨if neg then ['-'] else [],
            natToChars (quantize3 m e / 1000),
            Nat.digitChar (quantize3 m e % 1000 / 100 % 10),
            Nat.digitChar (quantize3 m e % 1000 / 10 % 10),
            Nat.digitChar (quantize3 m e % 1000 % 10),
            ?_, ?_, natToChars_ne_nil _, natToChars_digits _,
            digitChar_isDigit (Nat.mod_lt _ (by omega)),
            digitChar_isDigit (Nat.mod_lt _ (by omega)),
            digitChar_isDigit (Nat.mod_lt _ (by omega))⟩
    · rw [hn]; rfl
    · cases neg <;> simp
  · unfold isValidFrequencyOf
    rw [h]
    simp [optTruthy]

/-- The phase used by the C6 witness. -/
def phaseW6 : Phase := ⟨some "p1", some "takeoff_request", some "tower", none⟩

/-- The request used by the C6 witness: no frequencies configured, so the
expected frequency normalizes to nothing. -/
def inpW6 : AnalyzeInput :=
  ⟨"torre", "121.9", none,
   ⟨some "p1", some phaseW6, [("p1", phaseW6)], none, none, none⟩,
   .error (), "url"⟩

/-- C6 witness: with no configured frequencies, the guard accepts an
arbitrary received frequency. -/
theorem c6_normalize_frequency_canonical_witness :
    expectedNormOf inpW6 phaseW6 = none ∧
    isValidFrequencyOf inpW6 phaseW6 = true :=
  ⟨by decide, c6_normalize_frequency_canonical.2.2 inpW6 phaseW6 (by decide)⟩

/-- C1: whenever the active frequency group has a configured expected
frequency (one that normalizes) and the normalized received frequency
differs from it, the conversational LLM is never invoked, the HTTP
response is 200 with `audio_url = null`, `controller_text = null` and the
deterministic feedback naming the normalized expected frequency, and the
persisted score row is a `frequency_usage_error` record with score 0
instead of a score for the active phase. -/
theorem c1_frequency_guard_short_circuit (inp : AnalyzeInput) (P : Phase) (e : String)
    (hP : inp.ctx.phase = some P)
    (hI : phaseIntentOf inp P ≠ none)
    (hE : expectedNormOf inp P = some e)
    (hNe : receivedNormOf inp ≠ some e) :
    Event.llmInvoke ∉ (analyze_audio inp).events ∧
    (analyze_audio inp).result = .ok
      { audio_url := none
        controller_text := none
        feedback := "La frecuencia esperada para esta solicitud es " ++ e ++ "." } ∧
    (analyze_audio inp).scoreRecord = some ("frequency_usage_error", 0) := by
  have hene : e ≠ "" := normalize_frequency_ne_empty _ _ hE
  have hvalid : isValidFrequencyOf inp P = false := by
    unfold isValidFrequencyOf
    rw [hE]
    simp [optTruthy, hene, hNe]
  obtain ⟨i, hi⟩ := Option.ne_none_iff_exists'.mp hI
  simp only [analyze_audio, hP, hi, hvalid, hE, synthesize_controller_audio,
    pyOrStr, if_neg hene]
  refine ⟨?_, by simp, by simp⟩
  by_cases ht : pyStrip inp.transcript = "" <;> simp [ht]

/-- The phase used by the C1 witness. -/
def phaseW1 : Phase := ⟨some "p1", some "takeoff_request", some "tower", none⟩

/-- The request used by the C1 witness: tower expects 118.300 but the
student transmits on 121.9. -/
def inpW1 : AnalyzeInput :=
  ⟨"torre alfa bravo", "121.9", none,
   ⟨some "p1", some phaseW1, [("p1", phaseW1)], some [("tower", "118.300")], none, none⟩,
   .error (), "url"⟩

/-- C1 witness: the guard fires on the concrete mismatched request. -/
theorem c1_frequency_guard_short_circuit_witness :
    expectedNormOf inpW1 phaseW1 = some "118.300" ∧
    receivedNormOf inpW1 = some "121.900" ∧
    (Event.llmInvoke ∉ (analyze_audio inpW1).events ∧
     (analyze_audio inpW1).result = .ok
       { audio_url := none
         controller_text := none
         feedback := "La frecuencia esperada para esta solicitud es " ++ "118.300" ++ "." } ∧
     (analyze_audio inpW1).scoreRecord = some ("frequency_usage_error", 0)) :=
  ⟨by decide, by decide,
   c1_frequency_guard_short_circuit inpW1 phaseW1 "118.300" rfl (by decide)
     (by decide) (by decide)⟩

/-- C9: whenever a validated response arrives with `allow_response = false`,
`synthesize_controller_audio` returns `None` without calling the
speech-synthesis or storage services, and the HTTP response carries
`audio_url = null` and `controller_text = null`. -/
theorem c9_allow_response_false_no_audio (inp : AnalyzeInput) (P : Phase)
    (outcome : LlmOutcome)
    (hP : inp.ctx.phase = some P)
    (hI : phaseIntentOf inp P ≠ none)
    (hV : isValidFrequencyOf inp P = true)
    (hllm : inp.llm = .ok outcome)
    (hallow : outcome.response.allow_response = false) :
    (∀ (text url : String), synthesize_controller_audio text false url = (none, [])) ∧
    Event.ttsSynthesize ∉ (analyze_audio inp).events ∧
    Event.storageUpload ∉ (analyze_audio inp).events ∧
    ∃ r, (analyze_audio inp).result = .ok r ∧
      r.audio_url = none ∧ r.controller_text = none := by
  obtain ⟨i, hi⟩ := Option.ne_none_iff_exists'.mp hI
  refine ⟨fun text url => by simp [synthesize_controller_audio], ?_, ?_, ?_⟩
  · simp only [analyze_audio, hP, hi, hV, hllm, hallow, synthesize_controller_audio]
    by_cases ht : pyStrip inp.transcript = "" <;> simp [ht]
  · simp only [analyze_audio, hP, hi, hV, hllm, hallow, synthesize_controller_audio]
    by_cases ht : pyStrip inp.transcript = "" <;> simp [ht]
  · simp only [analyze_audio, hP, hi, hV, hllm, hallow, synthesize_controller_audio]
    exact ⟨_, rfl, by simp, by simp⟩

/-- The phase used by the C9 witness. -/
def phaseW9 : Phase := ⟨some "p1", some "takeoff_request", some "tower", none⟩

/-- The LLM response used by the C9 witness: the model withholds a reply. -/
def respW9 : StructuredLlmResponse :=
  ⟨"takeoff_request", false, some "texto", "colacione de nuevo", none, none, ⟨none, none⟩⟩

/-- The request used by the C9 witness. -/
def inpW9 : AnalyzeInput :=
  ⟨"torre alfa", "118.3", none,
   ⟨some "p1", some phaseW9, [("p1", phaseW9)], none, none, none⟩,
   .ok ⟨respW9, "raw"⟩, "url"⟩

/-- C9 witness: no TTS/storage call happens on the concrete withheld
reply. -/
theorem c9_allow_response_false_no_audio_witness :
    isValidFrequencyOf inpW9 phaseW9 = true ∧
    respW9.allow_response = false ∧
    Event.ttsSynthesize ∉ (analyze_audio inpW9).events ∧
    Event.storageUpload ∉ (analyze_audio inpW9).events :=
  ⟨by decide, by decide,
   (c9_allow_response_false_no_audio inpW9 phaseW9 ⟨respW9, "raw"⟩ rfl (by decide)
      (by decide) rfl rfl).2.1,
   (c9_allow_response_false_no_audio inpW9 phaseW9 ⟨respW9, "raw"⟩ rfl (by decide)
      (by decide) rfl rfl).2.2.1⟩

/-- C10: even when the validated response has `allow_response = true`, a
null, empty or whitespace-only `controller_text` yields no audio — the
synthesis stage returns `None` without calling the synthesis service, and
the HTTP response carries `controller_text = null` and `audio_url = null`. -/
theorem c10_blank_controller_text_no_audio (inp : AnalyzeInput) (P : Phase)
    (outcome : LlmOutcome)
    (hP : inp.ctx.phase = some P)
    (hI : phaseIntentOf inp P ≠ none)
    (hV : isValidFrequencyOf inp P = true)
    (hllm : inp.llm = .ok outcome)
    (hallow : outcome.response.allow_response = true)
    (htext : pyStrip (pyOrStr outcome.response.controller_text "") = "") :
    (∀ (text : String) (allow : Bool) (url : String), pyStrip text = "" →
        synthesize_controller_audio text allow url = (none, [])) ∧
    Event.ttsSynthesize ∉ (analyze_audio inp).events ∧
    Event.storageUpload ∉ (analyze_audio inp).events ∧
    ∃ r, (analyze_audio inp).result = .ok r ∧
      r.audio_url = none ∧ r.controller_text = none := by
  obtain ⟨i, hi⟩ := Option.ne_none_iff_exists'.mp hI
  have hgen : ∀ (text : String) (allow : Bool) (url : String), pyStrip text = "" →
      synthesize_controller_audio text allow url = (none, []) := by
    intro text allow url h
    unfold synthesize_controller_audio
    rw [h]
    simp
  have hstrip : pyStrip "" = "" := by decide
  refine ⟨hgen, ?_, ?_, ?_⟩
  · simp only [analyze_audio, hP, hi, hV, hllm, hallow, htext, hgen _ _ _ hstrip]
    by_cases ht : pyStrip inp.transcript = "" <;> simp [ht]
  · simp only [analyze_audio, hP, hi, hV, hllm, hallow, htext, hgen _ _ _ hstrip]
    by_cases ht : pyStrip inp.transcript = "" <;> simp [ht]
  · simp only [analyze_audio, hP, hi, hV, hllm, hallow, htext, hgen _ _ _ hstrip]
    exact ⟨_, rfl, by simp, by simp⟩

/-- The phase used by the C10 witness. -/
def phaseW10 : Phase := ⟨some "p1", some "takeoff_request", some "tower", none⟩

/-- The LLM response used by the C10 witness: reply allowed, but the
controller text is whitespace only. -/
def respW10 : StructuredLlmResponse :=
  ⟨"takeoff_request", true, some "   ", "bien", none, none, ⟨none, none⟩⟩

/-- The request used by the C10 witness. -/
def inpW10 : AnalyzeInput :=
  ⟨"torre alfa", "118.3", none,
   ⟨some "p1", some phaseW10, [("p1", phaseW10)], none, none, none⟩,
   .ok ⟨respW10, "raw"⟩, "url"⟩

/-- C10 witness: whitespace-only controller text yields no audio even with
`allow_response = true`. -/
theorem c10_blank_controller_text_no_audio_witness :
    respW10.allow_response = true ∧
    pyStrip (pyOrStr respW10.controller_text "") = "" ∧
    Event.ttsSynthesize ∉ (analyze_audio inpW10).events ∧
    Event.storageUpload ∉ (analyze_audio inpW10).events :=
  ⟨by decide, by decide,
   (c10_blank_controller_text_no_audio inpW10 phaseW10 ⟨respW10, "raw"⟩ rfl
      (by decide) (by decide) rfl rfl (by decide)).2.1,
   (c10_blank_controller_text_no_audio inpW10 phaseW10 ⟨respW10, "raw"⟩ rfl
      (by decide) (by decide) rfl rfl (by decide)).2.2.1⟩

/-- C3 (amended): when the session resolves to no active phase, or the
active phase lacks an intent and the classifier detected none either, the
request fails with the corresponding 409 condition and the pipeline stops
before the conversational LLM and before any speech-synthesis or
audio-storage call — but transcription and the student-turn append have
already happened by then. -/
theorem c3_conflict_before_inference (inp : AnalyzeInput)
    (h : inp.ctx.phase = none ∨
         ∃ P, inp.ctx.phase = some P ∧ phaseIntentOf inp P = none) :
    ((analyze_audio inp).result = .conflictNoPhase ∨
     (analyze_audio inp).result = .conflictNoIntent) ∧
    Event.llmInvoke ∉ (analyze_audio inp).events ∧
    Event.ttsSynthesize ∉ (analyze_audio inp).events ∧
    Event.storageUpload ∉ (analyze_audio inp).events ∧
    Event.transcribe ∈ (analyze_audio inp).events ∧
    Event.appendTurn ∈ (analyze_audio inp).events := by
  rcases h with h | ⟨P, hP, hI⟩
  · have hres : analyze_audio inp =
        ⟨.conflictNoPhase,
         [Event.transcribe] ++
           (if pyStrip inp.transcript = "" then [] else [Event.classifierInvoke]) ++
           [Event.appendTurn], none, inp.ctx⟩ := by
      simp only [analyze_audio, h]
    rw [hres]
    refine ⟨Or.inl rfl, ?_, ?_, ?_, ?_, ?_⟩ <;>
      (by_cases ht : pyStrip inp.transcript = "" <;> simp [ht])
  · have hres : analyze_audio inp =
        ⟨.conflictNoIntent,
         [Event.transcribe] ++
           (if pyStrip inp.transcript = "" then [] else [Event.classifierInvoke]) ++
           [Event.appendTurn], none, inp.ctx⟩ := by
      simp only [analyze_audio, hP, hI]
    rw [hres]
    refine ⟨Or.inr rfl, ?_, ?_, ?_, ?_, ?_⟩ <;>
      (by_cases ht : pyStrip inp.transcript = "" <;> simp [ht])

/-- The no-active-phase request of the C3 counterexample. -/
def inpW3NoPhase : AnalyzeInput :=
  ⟨"torre alfa", "118.3", none, ⟨none, none, [], none, none, none⟩, .error (), "url"⟩

/-- A phase without an intent, for the C3 counterexample. -/
def phaseW3 : Phase := ⟨some "p1", none, some "tower", none⟩

/-- A request whose phase lacks an intent but whose classifier detected
one, for the C3 counterexample. -/
def inpW3Classifier : AnalyzeInput :=
  ⟨"torre alfa", "118.3", some ⟨"takeoff_request", some "tower", none⟩,
   ⟨some "p1", some phaseW3, [("p1", phaseW3)], none, none, none⟩,
   .ok ⟨⟨"takeoff_request", true, some "autorizado", "bien", none, some 80, ⟨none, none⟩⟩,
        "raw"⟩,
   "url"⟩

/-- C3 counterexample: on a no-active-phase request the transcription, the
intent classifier and the student-turn storage append have all already run
before the 409 is raised — so the pipeline does not stop before every
external call; and a phase lacking an intent does not fail when the
classifier supplied one: the request completes with HTTP 200. -/
theorem c3_counterexample :
    (analyze_audio inpW3NoPhase).result = .conflictNoPhase ∧
    Event.transcribe ∈ (analyze_audio inpW3NoPhase).events ∧
    Event.classifierInvoke ∈ (analyze_audio inpW3NoPhase).events ∧
    Event.appendTurn ∈ (analyze_audio inpW3NoPhase).events ∧
    phaseW3.intent = none ∧
    (analyze_audio inpW3Classifier).result =
      .ok ⟨some "url", some "autorizado", "bien"⟩ := by
  decide

/-- C3 witness: a concrete no-active-phase request hits the amended
conclusion. -/
theorem c3_conflict_before_inference_witness :
    inpW3NoPhase.ctx.phase = none ∧
    ((analyze_audio inpW3NoPhase).result = .conflictNoPhase ∨
     (analyze_audio inpW3NoPhase).result = .conflictNoIntent) ∧
    Event.llmInvoke ∉ (analyze_audio inpW3NoPhase).events :=
  ⟨rfl, (c3_conflict_before_inference inpW3NoPhase (Or.inl rfl)).1,
   (c3_conflict_before_inference inpW3NoPhase (Or.inl rfl)).2.1⟩

/-- C4 (amended): a phase transition occurs if and only if a candidate
next-phase id exists — explicit `metadata.nextPhase`/`metadata.next_phase`
from the response, else (only when `allow_response` is true) the active
phase's `transitions.onSuccess` or, when that is missing or falsy,
`transitions.success` — and the candidate resolves in `phase_map`;
otherwise `phase_id`, `phase` and both frequency groups are unchanged.
When the transition occurs and the new phase carries a (truthy) frequency
group, that group becomes both the session's default and active group;
when the new phase carries none, both groups are unchanged. -/
theorem c4_phase_transition_iff (ctx : SessionState) (P : Phase) (allow : Bool)
    (m : Metadata) :
    (∀ pid, transitionCandidate P allow m = some pid →
      (∀ nxt, ctx.phase_map.lookup pid = some nxt →
        (applyPhaseTransition ctx P allow m).phase_id = some pid ∧
        (applyPhaseTransition ctx P allow m).phase = some nxt ∧
        (optTruthy nxt.frequency = true →
          (applyPhaseTransition ctx P allow m).default_frequency_group = nxt.frequency ∧
          (applyPhaseTransition ctx P allow m).active_frequency_group = nxt.frequency) ∧
        (optTruthy nxt.frequency = false →
          (applyPhaseTransition ctx P allow m).default_frequency_group =
            ctx.default_frequency_group ∧
          (applyPhaseTransition ctx P allow m).active_frequency_group =
            ctx.active_frequency_group)) ∧
      (ctx.phase_map.lookup pid = none → applyPhaseTransition ctx P allow m = ctx)) ∧
    (transitionCandidate P allow m = none → applyPhaseTransition ctx P allow m = ctx) := by
  refine ⟨fun pid hc => ⟨fun nxt hl => ?_, fun hl => ?_⟩, fun hc => ?_⟩
  · unfold applyPhaseTransition
    rw [hc]
    dsimp only
    rw [hl]
    refine ⟨rfl, rfl, fun hf => ?_, fun hf => ?_⟩ <;> simp [hf]
  · unfold applyPhaseTransition
    rw [hc]
    dsimp only
    rw [hl]
  · unfold applyPhaseTransition
    rw [hc]

/-- The phase of the C4 counterexample: its transitions carry only the
`success` key, not `onSuccess`. -/
def phaseW4 : Phase := ⟨some "p1", some "intentA", some "tower", some ⟨none, some "p2"⟩⟩

/-- The destination phase of the C4 counterexample, carrying its own
frequency group. -/
def phaseW4b : Phase := ⟨some "p2", some "intentB", some "ground", none⟩

/-- The session state of the C4 counterexample. -/
def ctxW4 : SessionState :=
  ⟨some "p1", some phaseW4, [("p1", phaseW4), ("p2", phaseW4b)], none, none, none⟩

/-- The candidate next-phase id exactly as claim C4 words it: explicit
metadata first, else `transitions.onSuccess` only (when `allow_response`
is true).  Modelled from the claim's wording, for comparison with the
code's `transitionCandidate`. -/
def claimNextPhaseCandidateC4 (P : Phase) (allow : Bool) (m : Metadata) : Option String :=
  match metadataNextPhase m with
  | some s => some s
  | none =>
    if allow then P.transitions.bind (fun t => truthyOpt (t.onSuccess.map pyStrip))
    else none

/-- C4 counterexample: with transitions `{"success": "p2"}` and
`allow_response = true`, no candidate exists under the claim's wording
(`onSuccess` only), yet the code transitions to `p2` and adopts its
frequency group — so the claimed "if and only if" fails. -/
theorem c4_counterexample :
    claimNextPhaseCandidateC4 phaseW4 true ⟨none, none⟩ = none ∧
    (applyPhaseTransition ctxW4 phaseW4 true ⟨none, none⟩).phase_id = some "p2" ∧
    ctxW4.phase_id = some "p1" ∧
    (applyPhaseTransition ctxW4 phaseW4 true ⟨none, none⟩).default_frequency_group =
      some "ground" ∧
    ctxW4.default_frequency_group = none := by
  decide

/-- C4 witness: a concrete transition through the `onSuccess` key. -/
theorem c4_phase_transition_iff_witness :
    transitionCandidate ⟨some "q1", some "i", none, some ⟨some "q2", none⟩⟩ true
      ⟨none, none⟩ = some "q2" ∧
    (applyPhaseTransition
        ⟨some "q1", none, [("q2", ⟨some "q2", some "j", some "ground", none⟩)],
         none, none, none⟩
        ⟨some "q1", some "i", none, some ⟨some "q2", none⟩⟩ true ⟨none, none⟩).phase_id =
      some "q2" :=
  ⟨by decide,
   ((c4_phase_transition_iff
       ⟨some "q1", none, [("q2", ⟨some "q2", some "j", some "ground", none⟩)],
        none, none, none⟩
       ⟨some "q1", some "i", none, some ⟨some "q2", none⟩⟩ true ⟨none, none⟩).1
     "q2" (by decide)).1 ⟨some "q2", some "j", some "ground", none⟩ (by decide) |>.1⟩

end EcoWhiskey
